import Mathlib

/-!
Verification development for the sculpt-s3files repository.

The development shallowly embeds the two source files that carry the
algorithmic content of the repository:

- src/process_images.py: the image transform pipeline (process_image
  and its resize geometry, anchors, crop, expand and thumbnail phases),
  with PIL images modelled as a heap of pixel buffers so that mutation
  and object identity can be reasoned about; and
- src/base.py: the stored-file record (is_ready, write_to_disk,
  generate_filename) and the derivation engine (_get_derivation,
  generate_derivation, generate_immediate_derivations).

Machine-level conventions used throughout the embedding:

- Python exceptions are modelled with Except PyErr.
- Python tri-state booleans (None / False / True) are Option Bool; the
  Python truthiness of such a value is (x = some true).
- The float arithmetic the source applies to image dimensions is
  modelled by the same real-valued computation carried out exactly: the
  aspect comparison becomes a cross-multiplied integer comparison and
  the int(..) truncation of a nonnegative quotient becomes natural
  division (see resize_geom).
- Python 2 integer division with the / operator is floor division and is
  modelled with Int.fdiv.
-/

/-- Python exception classes that the modelled code can raise. -/
inductive PyErr where
  /-- NameError: an unqualified global name is not defined. -/
  | nameError
  /-- AttributeError: an attribute lookup on an object fails. -/
  | attributeError
  /-- UnboundLocalError: a local variable is read before assignment. -/
  | unboundLocal
  /-- IOError raised by file or image input and output. -/
  | ioFailure
  /-- OSError raised by os.makedirs (configuration error, never caught). -/
  | osFailure
  /-- Exception raised for an unknown file derivation type. -/
  | unknownDerivation
deriving DecidableEq

/-- An RGB pixel value.  The transform engine never inspects individual
channels, so the component type is left as a plain triple of naturals. -/
abbrev Color := Nat × Nat × Nat

/-- A PIL image: a pixel buffer with a size and a color mode.  The pixel
function is total; reads outside the rectangle [0,w) x [0,h) are only ever
produced by crop with an out-of-range box, which PIL fills with black. -/
structure Img where
  w : Nat
  h : Nat
  mode : String
  px : Int → Int → Color

/-- The all-black placeholder image used for out-of-store reads. -/
def blackImg : Img := ⟨0, 0, "RGB", fun _ _ => (0, 0, 0)⟩

/-- The heap of live PIL images.  References are indices; allocation
appends.  del only drops a reference and never shrinks the store. -/
abbrev ImgStore := List Img

/-- Read an image from the store (total, with a black default). -/
def getImg (store : ImgStore) (r : Nat) : Img := store.getD r blackImg

/-- Allocate a fresh image at the end of the store. -/
def allocImg (store : ImgStore) (img : Img) : ImgStore × Nat :=
  (store ++ [img], store.length)

/-- Overwrite the image at an existing reference (an in-place PIL
mutation such as paste or thumbnail). -/
def setImg (store : ImgStore) (r : Nat) (img : Img) : ImgStore :=
  store.set r img

/-- PIL Image.crop with box (x1, y1, x2, y2): a copy of the sub-rectangle,
black-filled where the box leaves the source (process_images.py line 97). -/
def cropImg (img : Img) (x1 y1 x2 y2 : Int) : Img :=
  { w := (x2 - x1).toNat
    h := (y2 - y1).toNat
    mode := img.mode
    px := fun i j =>
      let a := x1 + i
      let b := y1 + j
      if 0 ≤ a ∧ a < (img.w : Int) ∧ 0 ≤ b ∧ b < (img.h : Int) then img.px a b
      else (0, 0, 0) }

/-- PIL Image.new of a given size filled with a background color; a None
background gives black (process_images.py line 111). -/
def newImg (size : Nat × Nat) (bg : Option Color) : Img :=
  ⟨size.1, size.2, "RGB", fun _ _ => bg.getD (0, 0, 0)⟩

/-- PIL Image.paste of src onto target with the paste box anchored at
(a, b) (process_images.py line 112); pixels outside the box keep the
target content. -/
def pasteImg (target src : Img) (a b : Int) : Img :=
  { target with
    px := fun i j =>
      if a ≤ i ∧ i < a + (src.w : Int) ∧ b ≤ j ∧ j < b + (src.h : Int) then
        src.px (i - a) (j - b)
      else target.px i j }

/-- The external image-codec capabilities that process_image consumes:
the per-pixel color conversion used by Image.convert, and the
aspect-preserving shrink used by Image.thumbnail.  Both return fresh
pixel content; which heap cell they touch is fixed by the caller. -/
structure PILEnv where
  cvt : Color → Color
  thumbFn : Img → Nat × Nat → Img

/-- PIL Image.convert(mode = RGB): a fresh image of the same size with
converted pixels (process_images.py line 91). -/
def convertRGB (env : PILEnv) (img : Img) : Img :=
  { img with mode := "RGB", px := fun i j => env.cvt (img.px i j) }

/-- RESIZE_MODES from process_images.py lines 7-12. -/
inductive ResizeMode where
  | CROP          -- 0
  | EXPAND        -- 1
  | MINIMUM_SIZE  -- 2
  | MAXIMUM_SIZE  -- 3
deriving DecidableEq

/-- ANCHOR_HORIZONTAL from process_images.py lines 13-17. -/
inductive AnchorH where
  | LEFT    -- 0
  | CENTER  -- 1
  | RIGHT   -- 2
deriving DecidableEq

/-- ANCHOR_VERTICAL from process_images.py lines 18-22. -/
inductive AnchorV where
  | TOP     -- 0
  | CENTER  -- 1
  | BOTTOM  -- 2
deriving DecidableEq

/-- The fields of a resize operation dictionary (base.py lines 106-113
show the shape used by the derivation rules). -/
structure ResizeSpec where
  target_size : Nat × Nat
  resize_mode : ResizeMode
  anchor_horizontal : AnchorH
  anchor_vertical : AnchorV
  background_color : Option Color
deriving DecidableEq

/-- One entry of an operation list.  A dictionary whose operation key is
not the string resize falls through the dispatch on line 42 with no
effect in the loop body. -/
inductive ImgOp where
  | resizeOp (r : ResizeSpec)
  | unknownOp (name : String)
deriving DecidableEq

deriving instance DecidableEq for Except

/-- Lines 51-69 of process_images.py: the update of the local variable
next_size performed by one resize operation.  prev is the value the
local already holds from an earlier iteration (none when unassigned).
The MINIMUM_SIZE and MAXIMUM_SIZE arms are pass-TODO in the source and
leave next_size untouched.  The source compares the aspect ratios with
Python float division and truncates the computed sizes with int(); the
embedding performs the same real-valued arithmetic exactly: the
comparison current_aspect_ratio > target_aspect_ratio of line 53 is the
cross-multiplied tw * h < w * th, the height-matched width of line 66 is
int(h * (tw / th)) = h * tw / th in natural division, and the
width-matched height of line 69 is int(w / (tw / th)) = w * th / tw.
(The degenerate zero dimensions on which Python float division would
raise ZeroDivisionError are outside the theorems below.) -/
def resize_geom (prev : Option (Nat × Nat)) (w h : Nat) (r : ResizeSpec) :
    Option (Nat × Nat) :=
  let tw := r.target_size.1
  let th := r.target_size.2
  let is_too_wide := tw * h < w * th
  if r.resize_mode = ResizeMode.MINIMUM_SIZE then prev
  else if r.resize_mode = ResizeMode.MAXIMUM_SIZE then prev
  else if (r.resize_mode = ResizeMode.CROP ∧ is_too_wide) ∨
      (r.resize_mode = ResizeMode.EXPAND ∧ ¬ is_too_wide) then
    some (h * tw / th, h)
  else
    some (w, w * th / tw)

/-- Reading the Python local next_size: raises UnboundLocalError when the
variable has never been assigned. -/
def useNS (ns : Option (Nat × Nat)) : Except PyErr (Nat × Nat) :=
  match ns with
  | some v => Except.ok v
  | none => Except.error PyErr.unboundLocal

/-- Reading the Python local next_image at the loop tail (line 130). -/
def useNI (ni : Option Nat) : Except PyErr Nat :=
  match ni with
  | some v => Except.ok v
  | none => Except.error PyErr.unboundLocal

/-- Lines 72-77: the horizontal anchor.  LEFT does not read next_size;
CENTER and RIGHT do, and raise if it is unbound.  The division is the
Python 2 floor division of two ints. -/
def anchor_x (w : Nat) (ns : Option (Nat × Nat)) (a : AnchorH) :
    Except PyErr Int :=
  match a with
  | AnchorH.LEFT => Except.ok 0
  | AnchorH.CENTER => do
      let v ← useNS ns
      Except.ok (((w : Int) - (v.1 : Int)).fdiv 2)
  | AnchorH.RIGHT => do
      let v ← useNS ns
      Except.ok ((w : Int) - (v.1 : Int))

/-- Lines 79-84: the vertical anchor, mirroring anchor_x. -/
def anchor_y (h : Nat) (ns : Option (Nat × Nat)) (a : AnchorV) :
    Except PyErr Int :=
  match a with
  | AnchorV.TOP => Except.ok 0
  | AnchorV.CENTER => do
      let v ← useNS ns
      Except.ok (((h : Int) - (v.2 : Int)).fdiv 2)
  | AnchorV.BOTTOM => do
      let v ← useNS ns
      Except.ok ((h : Int) - (v.2 : Int))

/-- Lines 90-118 of process_images.py: convert the working image to RGB
when needed, produce the next image by crop (resize_mode CROP) or by the
canvas-and-paste expand path (every other mode, since line 93 tests
equality with CROP only), then shrink it in place with thumbnail.
Returns the updated store and the reference holding next_image. -/
def resize_paint (env : PILEnv) (store : ImgStore) (working : Nat)
    (r : ResizeSpec) (ns : Nat × Nat) (x y : Int) : ImgStore × Nat :=
  let wimg := getImg store working
  let pair :=
    if wimg.mode = "RGB" then (store, wimg)
    else ((allocImg store (convertRGB env wimg)).1, convertRGB env wimg)
  let store1 := pair.1
  let wimg1 := pair.2
  if r.resize_mode = ResizeMode.CROP then
    let p2 := allocImg store1 (cropImg wimg1 x y (x + (ns.1 : Int)) (y + (ns.2 : Int)))
    let store2 := p2.1
    let ni := p2.2
    (setImg store2 ni (env.thumbFn (getImg store2 ni) r.target_size), ni)
  else
    let canvas := newImg ns r.background_color
    let p2 := allocImg store1 canvas
    let store2 := p2.1
    let ni := p2.2
    let store3 := setImg store2 ni (pasteImg canvas wimg1 (-x) (-y))
    (setImg store3 ni (env.thumbFn (getImg store3 ni) r.target_size), ni)

/-- The Python locals of process_image that persist across loop
iterations: the heap, the working image reference, and the (possibly
unassigned) locals next_size and next_image. -/
structure PIState where
  store : ImgStore
  working : Nat
  next_size : Option (Nat × Nat)
  next_image : Option Nat

/-- One resize operation (the body of lines 42-121). -/
def resize_step (env : PILEnv) (st : PIState) (r : ResizeSpec) :
    Except PyErr PIState := do
  let wimg := getImg st.store st.working
  let ns := resize_geom st.next_size wimg.w wimg.h r
  let x ← anchor_x wimg.w ns r.anchor_horizontal
  let y ← anchor_y wimg.h ns r.anchor_vertical
  let nsv ← useNS ns
  let p := resize_paint env st.store st.working r nsv x y
  Except.ok { store := p.1, working := st.working, next_size := ns,
              next_image := some p.2 }

/-- One full iteration of the loop at line 38: the operation dispatch
followed by the unconditional tail at lines 126-130, which rebinds the
working image to next_image (del of the previous working image is a
reference drop and leaves the heap unchanged). -/
def op_step (env : PILEnv) (st : PIState) (op : ImgOp) :
    Except PyErr PIState := do
  let st' ←
    match op with
    | ImgOp.resizeOp r => resize_step env st r
    | ImgOp.unknownOp _ => Except.ok st
  let ni ← useNI st'.next_image
  Except.ok { st' with working := ni }

/-- The loop of process_image.  On an uncaught exception the function
propagates it; the store returned alongside the error is the heap before
the failing iteration (allocations inside a failing iteration are
unreferenced garbage and are not modelled individually; no in-place
write precedes any raise inside an iteration). -/
def run_ops (env : PILEnv) : List ImgOp → PIState → ImgStore × Except PyErr Nat
  | [], st => (st.store, Except.ok st.working)
  | op :: rest, st =>
    match op_step env st op with
    | Except.ok st' => run_ops env rest st'
    | Except.error e => (st.store, Except.error e)

/-- process_image from process_images.py lines 31-135: runs the
operation list over the working image starting from source_image and
returns the final heap together with the reference of the returned
image (or the propagated exception). -/
def process_image (env : PILEnv) (store : ImgStore) (source_image : Nat)
    (operations : List ImgOp) : ImgStore × Except PyErr Nat :=
  run_ops env operations ⟨store, source_image, none, none⟩

/-! ## The stored-file record model (src/base.py) -/

namespace REMOTE_STATUS

/-- REMOTE_STATUS enumeration value from base.py line 77. -/
def LOCAL_CORRUPT : Int := -1

/-- REMOTE_STATUS enumeration value from base.py line 78. -/
def LOCAL_INCOMPLETE : Int := 0

/-- REMOTE_STATUS enumeration value from base.py line 79. -/
def LOCAL_ONLY : Int := 1

/-- REMOTE_STATUS enumeration value from base.py line 80. -/
def LOCAL_READY : Int := 2

/-- REMOTE_STATUS enumeration value from base.py line 81. -/
def IN_PROGRESS : Int := 3

/-- REMOTE_STATUS enumeration value from base.py line 82. -/
def REMOTE_ONLY : Int := 4

end REMOTE_STATUS

/-- DERIVATION_MODES from base.py lines 97-101. -/
inductive DMode where
  | MANUAL       -- 0
  | LAZY         -- 1
  | IMMEDIATELY  -- 2
deriving DecidableEq

/-- One row of the DERIVATION_TYPES table (base.py lines 102-115): the
numeric value, the identifier, the human label, the generation mode and
the transform operation list.  Derived classes override the table, so
every function below takes the table as a parameter. -/
structure DRule where
  value : Nat
  id : String
  label : String
  mode : DMode
  operations : List ImgOp
deriving DecidableEq

/-- Enumeration.get_data_by_id from sculpt.common as used at base.py
lines 519 and 576: the table row with the given identifier, or none. -/
def get_data_by_id (table : List DRule) (dt : String) : Option DRule :=
  table.find? (fun r => r.id = dt)

/-- A derivation record (a child StoredFile row).  Only the fields the
claims touch are modelled; tag stands for the database identity of the
row so that distinct children are distinguishable. -/
structure DFile where
  tag : Nat
  derivation_type : String
  remote_status : Int
  is_valid : Option Bool
deriving DecidableEq

/-- The per-record derivation cache (base.py line 517): a Python dict
from derivation type to the cached answer, which is either a child
record or None for a known absence.  The outer Option is the initial
None value of the _derivation_cache attribute. -/
abbrev DCache := List (String × Option DFile)

/-- Python dict membership test for the cache. -/
def cacheLookup (c : DCache) (k : String) : Option (Option DFile) :=
  (c.find? (fun p => p.1 = k)).map (fun p => p.2)

/-- Python dict assignment for the cache (overwrites any earlier entry). -/
def cacheInsert (c : DCache) (k : String) (v : Option DFile) : DCache :=
  (k, v) :: c.filter (fun p => ¬ (p.1 = k))

/-- A parent StoredFile record with the fields the claims touch.  The db
field is the persistent derivations query set of the record; the cache
field is the in-memory _derivation_cache attribute. -/
structure SFRecord where
  tag : Nat
  original_filename : List Char
  hash : Option (List Char)
  generated_filename : Option (List Char)
  is_valid : Option Bool
  remote_status : Int
  cache : Option DCache
  db : List DFile
deriving DecidableEq

/-- The Django settings consumed by the modelled code
(default_settings.py lines 36-41). -/
structure Settings where
  remote_mode_local : Bool
  split_levels : Nat
  split_chars : Nat
deriving DecidableEq

/-- default_remote_status from base.py lines 481-486. -/
def default_remote_status (s : Settings) : Int :=
  if s.remote_mode_local then REMOTE_STATUS.LOCAL_ONLY
  else REMOTE_STATUS.LOCAL_READY

/-- self.derivations.filter(derivation_type = dt).first() from base.py
line 529: the first child of the given type in the persistent store. -/
def first_derivation (rec : SFRecord) (dt : String) : Option DFile :=
  rec.db.find? (fun c => c.derivation_type = dt)

/-- The external outcomes consumed by one call to generate_derivation:
whether Image.open of the local file succeeds (line 615), whether
process_image completes without an exception (line 630), whether the
image save to disk succeeds (line 660), and the database identity given
to the created child row.  The pixel-level semantics of the transform is
the process_image embedding above; here only its success is relevant. -/
structure GenEnv where
  decode_ok : Bool
  transform_ok : Bool
  write_ok : Bool
  newTag : Nat
deriving DecidableEq

/-- The outcome of generate_derivation: the returned value and the
updated record (cache and persistent children). -/
structure GenOutcome where
  result : Option DFile
  record : SFRecord
deriving DecidableEq

/-- generate_derivation from base.py lines 575-708.  Control flow of the
source, in order: unknown rule raises (line 578); a LOCAL_CORRUPT or
not-explicitly-valid source caches absence and returns None (lines
588-601); a failed decode of the source image caches absence and
returns None (lines 609-624); a transform failure caches absence and
returns None (lines 629-696); a failed disk write persists the child as
corrupt, then the re-raised IOError is caught by the outer handler,
which caches absence and returns None (lines 656-696); on success the
child is promoted to the default remote status, cached and returned
(lines 698-708).  original_image mirrors the optional precomputed PIL
image (only its presence matters here). -/
def generate_derivation (table : List DRule) (s : Settings) (rec : SFRecord)
    (dt : String) (original_image : Option Unit) (env : GenEnv) :
    Except PyErr GenOutcome :=
  match get_data_by_id table dt with
  | none => Except.error PyErr.unknownDerivation
  | some _ =>
    let cache0 := rec.cache.getD []
    if rec.remote_status = REMOTE_STATUS.LOCAL_CORRUPT ∨ ¬ (rec.is_valid = some true) then
      Except.ok ⟨none, { rec with cache := some (cacheInsert cache0 dt none) }⟩
    else if original_image = none ∧ ¬ env.decode_ok then
      Except.ok ⟨none, { rec with cache := some (cacheInsert cache0 dt none) }⟩
    else if ¬ env.transform_ok then
      Except.ok ⟨none, { rec with cache := some (cacheInsert cache0 dt none) }⟩
    else if ¬ env.write_ok then
      let child : DFile :=
        ⟨env.newTag, dt, REMOTE_STATUS.LOCAL_CORRUPT, some false⟩
      Except.ok ⟨none, { rec with cache := some (cacheInsert cache0 dt none),
                                  db := rec.db ++ [child] }⟩
    else
      let child : DFile :=
        ⟨env.newTag, dt, default_remote_status s, none⟩
      Except.ok ⟨some child, { rec with cache := some (cacheInsert cache0 dt (some child)),
                                        db := rec.db ++ [child] }⟩

/-- The outcome of one _get_derivation call: the returned value, the
updated record, and the number of generate_derivation invocations the
call performed (the call-count probe of the spec scenario). -/
structure FetchOutcome where
  result : Option DFile
  record : SFRecord
  gen_calls : Nat
deriving DecidableEq

/-- _get_derivation from base.py lines 518-560, translated clause by
clause.  Lines 528-534: when the type is not cached, or force_reload is
set, the persistent store is queried and the answer cached, and the
local allow_lazy is set to True; otherwise allow_lazy is set to False.
The source never reads allow_lazy after assigning it: the generation
test at line 556 is (mode is LAZY or IMMEDIATELY) and process_lazy, with
no allow_lazy conjunct, and the embedding reproduces exactly that test.
Lines 540-549: a cached child that is LOCAL_CORRUPT is reported as
absent; a healthy cached child is returned.  Lines 556-560: otherwise
generation runs when the mode and process_lazy permit. -/
def _get_derivation (table : List DRule) (s : Settings) (rec : SFRecord)
    (dt : String) (process_lazy : Bool) (force_reload : Bool) (env : GenEnv) :
    Except PyErr FetchOutcome :=
  match get_data_by_id table dt with
  | none => Except.error PyErr.unknownDerivation
  | some derivation =>
    let cache0 := rec.cache.getD []
    let pair :=
      if (cacheLookup cache0 dt).isNone ∨ force_reload then
        (cacheInsert cache0 dt (first_derivation rec dt), true)
      else
        (cache0, false)
    let cache1 := pair.1
    let _allow_lazy := pair.2
    let derived_file := (cacheLookup cache1 dt).getD none
    let rec1 := { rec with cache := some cache1 }
    match derived_file with
    | some df =>
      if df.remote_status = REMOTE_STATUS.LOCAL_CORRUPT then
        Except.ok ⟨none, rec1, 0⟩
      else
        Except.ok ⟨some df, rec1, 0⟩
    | none =>
      if (derivation.mode = DMode.LAZY ∨ derivation.mode = DMode.IMMEDIATELY) ∧
          process_lazy then
        match generate_derivation table s rec1 dt none env with
        | Except.error e => Except.error e
        | Except.ok g => Except.ok ⟨g.result, g.record, 1⟩
      else
        Except.ok ⟨none, rec1, 0⟩

/-- is_ready from base.py lines 211-213.  The source line is

  return self.is_valid and self.remote_status in [
      REMOTE_STATUS.LOCAL_ONLY, REMOTE_STATUS.REMOTE_ONLY ]

The name REMOTE_STATUS on the right-hand side is unqualified: base.py
defines REMOTE_STATUS only as a class attribute (line 76), Python class
attributes are not in scope inside method bodies, and none of the module
imports at lines 1-12 bind that name at module level (every other use in
the file goes through self.REMOTE_STATUS).  Evaluating the right operand
therefore raises NameError.  The and operator short-circuits, so when
is_valid is falsy (None or False) the method returns is_valid itself
without evaluating the broken operand. -/
def is_ready (rec : SFRecord) : Except PyErr (Option Bool) :=
  if rec.is_valid = some true then Except.error PyErr.nameError
  else Except.ok rec.is_valid

/-- generate_immediate_derivations from base.py lines 714-725.  Lines
715-718 open the source image when none was passed; the source does not
catch exceptions here (its own comment admits this), so a decode failure
propagates.  Line 720 guards on is_valid and the image (a PIL image
object is always truthy).  Line 721 then evaluates self.file_class:
AbstractStoredFile and this module define no attribute file_class (the
name exists only as a class attribute of AjaxFileUploadView, views.py
line 38, from which this loop was evidently copied, and the sibling loop
at base.py lines 331-335 spells cls.DERIVATION_TYPES instead), so the
lookup raises AttributeError before any rule is iterated.  The returned
list collects the rule identifiers for which generate_derivation would
be invoked. -/
def generate_immediate_derivations (rec : SFRecord)
    (original_image : Option Unit) (env : GenEnv) :
    Except PyErr (List String) := do
  let _ ←
    match original_image with
    | some _ => Except.ok ()
    | none => if env.decode_ok then Except.ok () else Except.error PyErr.ioFailure
  if rec.is_valid = some true then
    Except.error PyErr.attributeError
  else
    Except.ok []

/-! ## Path generation (base.py lines 355-381) and local disk writes -/

/-- Python str.rfind of a single character: the greatest index holding
that character, or -1 when absent. -/
def pyRFind (c : Char) : List Char → Int
  | [] => -1
  | a :: rest =>
    let r := pyRFind c rest
    if 0 ≤ r then r + 1
    else if a = c then 0 else -1

/-- os.path.splitext for posix paths, following genericpath._splitext:
find the last path separator and the last dot; when the last dot lies
after the last separator and at least one character of the basename
before that dot is not a dot (leading dots never begin an extension),
split there; otherwise the extension is empty. -/
def splitext (p : List Char) : List Char × List Char :=
  let sepIndex := pyRFind '/' p
  let dotIndex := pyRFind '.' p
  if sepIndex < dotIndex then
    let base := (p.take dotIndex.toNat).drop (sepIndex + 1).toNat
    if base.any (fun ch => ¬ (ch = '.')) then
      (p.take dotIndex.toNat, p.drop dotIndex.toNat)
    else (p, [])
  else (p, [])

/-- os.path.join for posix paths (relative components): fold the
components onto the first one; a component starting with the separator
restarts the path, joining onto an empty or separator-terminated path
appends directly, and otherwise a separator is inserted. -/
def pyJoinFold (path : List Char) : List (List Char) → List Char
  | [] => path
  | b :: rest =>
    let path' :=
      if b.head? = some '/' then b
      else if path = [] ∨ path.getLast? = some '/' then path ++ b
      else path ++ '/' :: b
    pyJoinFold path' rest

/-- os.path.join applied to a nonempty argument list. -/
def pyJoin : List (List Char) → List Char
  | [] => []
  | a :: rest => pyJoinFold a rest

/-- generate_filename from base.py lines 355-381, as a function of the
hash, the original filename, and the SCULPT_S3FILES_SPLIT_LEVELS and
SCULPT_S3FILES_SPLIT_CHARS settings (the source method first ensures the
hash exists via generate_hash, which lives in the external
sculpt.model_tools base class; the hash is an input here).  Lines
368-370 slice the directory pieces from the front of the hash; lines
378-379 build the final component from the rest of the hash and the
splitext extension of the original filename; line 381 joins them. -/
def generate_filename (hash fn : List Char) (levels chars : Nat) : List Char :=
  let dirs := (List.range levels).map (fun i => (hash.drop (i * chars)).take chars)
  let ext := (splitext fn).2
  pyJoin (dirs ++ [hash.drop (levels * chars) ++ ext])

/-- The extension rule as the claim states it: the substring after the
last dot of the original filename, including the dot, or empty when
there is no dot.  This definition follows the words of the claim, for
comparison against the splitext rule the source actually applies. -/
def claim_ext (fn : List Char) : List Char :=
  let dotIndex := pyRFind '.' fn
  if dotIndex < 0 then [] else fn.drop dotIndex.toNat

/-- The path of the claim, built with claim_ext and plain joining; used
only to compare the stated extension rule with the source. -/
def generate_filename_claimed (hash fn : List Char) (levels chars : Nat) : List Char :=
  List.intercalate ['/']
    ((List.range levels).map (fun i => (hash.drop (i * chars)).take chars) ++
      [hash.drop (levels * chars) ++ claim_ext fn])

/-- Python 2 round of the nonnegative fraction a / b: round half away
from zero, which for a nonnegative value is floor(a / b + 1 / 2). -/
def pyRound (a b : Nat) : Nat := (2 * a + b) / (2 * b)

/-- The external outcomes consumed by one write_to_disk call: the hash
generate_hash would produce if invoked, whether os.makedirs succeeds
(line 443, uncaught on failure), and whether the chunked write completes
without IOError (lines 446-460). -/
structure WriteEnv where
  new_hash : List Char
  mkdir_ok : Bool
  io_ok : Bool
deriving DecidableEq

/-- The outcome of write_to_disk: the updated record and the
update_fields list passed to save (none when save was False or the
failure propagated before any save). -/
structure WriteOutcome where
  record : SFRecord
  persisted : Option (List String)
deriving DecidableEq

/-- write_to_disk from base.py lines 422-478.  updated_fields collects
the field names to persist: hash when it was just generated (lines
430-432), generated_filename when it was just generated (lines 435-437).
ensure_local_path_exists failure propagates (lines 439-443).  An IOError
from the write loop marks the record invalid and corrupt, persists the
collected fields, and returns normally (lines 462-472).  On success the
remote status becomes the configured default and the collected fields
are persisted (lines 474-478). -/
def write_to_disk (s : Settings) (rec : SFRecord) (env : WriteEnv)
    (save : Bool) : Except PyErr WriteOutcome :=
  let uf0 : List String := []
  let pair1 :=
    if rec.hash = none ∨ rec.hash = some [] then
      ({ rec with hash := some env.new_hash }, uf0 ++ ["hash"])
    else (rec, uf0)
  let rec1 := pair1.1
  let uf1 := pair1.2
  let gf := generate_filename (rec1.hash.getD []) rec1.original_filename
    s.split_levels s.split_chars
  let pair2 :=
    if rec1.generated_filename = none then
      ({ rec1 with generated_filename := some gf }, uf1 ++ ["generated_filename"])
    else (rec1, uf1)
  let rec2 := pair2.1
  let uf2 := pair2.2
  if ¬ env.mkdir_ok then
    Except.error PyErr.osFailure
  else if ¬ env.io_ok then
    let rec3 := { rec2 with is_valid := some false,
                            remote_status := REMOTE_STATUS.LOCAL_CORRUPT }
    Except.ok ⟨rec3, if save then some (uf2 ++ ["is_valid", "remote_status"]) else none⟩
  else
    let rec3 := { rec2 with remote_status := default_remote_status s }
    Except.ok ⟨rec3, if save then some (uf2 ++ ["remote_status"]) else none⟩

/-! ## Concrete instances used by the witnesses and counterexamples -/

/-- A trivial instantiation of the external codec capabilities, used to
evaluate the pipeline on concrete inputs (the control flow of
process_image does not depend on these functions). -/
def idPIL : PILEnv := ⟨id, fun img _ => img⟩

/-- A 4 x 2 RGB test image. -/
def img42 : Img := ⟨4, 2, "RGB", fun _ _ => (0, 0, 0)⟩

/-- A centered CROP resize to 2 x 2. -/
def cropOp22 : ImgOp :=
  ImgOp.resizeOp ⟨(2, 2), ResizeMode.CROP, AnchorH.CENTER, AnchorV.CENTER, none⟩

/-- A MINIMUM_SIZE resize to 9 x 9 (the unimplemented mode). -/
def minOp99 : ImgOp :=
  ImgOp.resizeOp ⟨(9, 9), ResizeMode.MINIMUM_SIZE, AnchorH.CENTER, AnchorV.CENTER, none⟩

/-- A centered CROP resize operation with target 5 x 2. -/
def crop52 : ResizeSpec := ⟨(5, 2), ResizeMode.CROP, AnchorH.CENTER, AnchorV.CENTER, none⟩

/-- A LAZY derivation rule. -/
def lazyRule : DRule := ⟨1, "PREVIEW", "Preview", DMode.LAZY, []⟩

/-- The THUMBNAIL rule shipped in base.py lines 102-115. -/
def thumbRule : DRule := ⟨0, "THUMBNAIL", "Thumbnail", DMode.IMMEDIATELY, [cropOp22]⟩

/-- Settings with local remote mode and the default split parameters
SCULPT_S3FILES_SPLIT_LEVELS = 2, SCULPT_S3FILES_SPLIT_CHARS = 1. -/
def stgLocal : Settings := ⟨true, 2, 1⟩

/-- A generation environment whose source decode fails. -/
def envFailGen : GenEnv := ⟨false, true, true, 99⟩

/-- A generation environment in which every external step succeeds. -/
def envOkGen : GenEnv := ⟨true, true, true, 99⟩

/-- A valid record whose cache already holds an absent answer for the
PREVIEW rule (the state after one failed lazy generation). -/
def recCachedAbsent : SFRecord :=
  ⟨1, "photo.jpg".data, some "abcdef".data, none, some true, 1,
    some [("PREVIEW", none)], []⟩

/-- A healthy THUMBNAIL child record. -/
def healthyChild : DFile := ⟨7, "THUMBNAIL", 1, some true⟩

/-- A LOCAL_CORRUPT record that still owns a healthy child derivation in
the persistent store. -/
def recCorruptWithChild : SFRecord :=
  ⟨2, "photo.jpg".data, some "abcdef".data, none, some false, -1, none,
    [healthyChild]⟩

/-- A LOCAL_CORRUPT record with no derivations at all. -/
def recCorruptBare : SFRecord :=
  ⟨4, "photo.jpg".data, some "abcdef".data, none, some false, -1, none, []⟩

/-- A freshly constructed record: no hash, no generated filename. -/
def recFresh : SFRecord := ⟨3, "photo.jpg".data, none, none, none, 0, none, []⟩

/-- A fully resolved valid record. -/
def recValid : SFRecord :=
  ⟨5, "photo.jpg".data, some "abcdef".data, some "a/b/cdef.jpg".data,
    some true, 1, none, []⟩

/-- A write environment whose byte write raises IOError. -/
def envIOFail : WriteEnv := ⟨"abcdef".data, true, false⟩

/-- A write environment in which the write succeeds. -/
def envIOOk : WriteEnv := ⟨"abcdef".data, true, true⟩

/-- Store preservation: every reference alive in the initial heap still
holds the identical image (same size, mode and every pixel). -/
def storePres (s0 s : ImgStore) : Prop :=
  s0.length ≤ s.length ∧ ∀ i, i < s0.length → s[i]? = s0[i]?

/-! ## Theorems -/

/-- Claim C1: the claim states that when _get_derivation is called with
force_reload false and finds the rule cached with an absent answer, it
returns nothing without invoking generate_derivation.  The source
computes allow_lazy for exactly this purpose (base.py lines 531-534,
with the comment: we already have a no answer in the cache, do not) but
never reads it: line 556 tests only the mode and process_lazy.  At a
record whose cache holds an absent answer for a LAZY rule, a plain fetch
with force_reload false therefore re-invokes generate_derivation once
(the generation fails again here, so the result happens to be nothing,
but only after the re-invocation the claim rules out). -/
theorem claim_C1_cache_hit_reinvokes_generation :
    recCachedAbsent.cache = some [("PREVIEW", none)] ∧
    _get_derivation [lazyRule] stgLocal recCachedAbsent "PREVIEW" true false envFailGen =
      Except.ok ⟨none, { recCachedAbsent with cache := some [("PREVIEW", none)] }, 1⟩ ∧
    ¬ (1 = 0) := by decide

/-- Claim C2: the claim states that is_ready is true exactly when
is_valid is true and remote_status is LOCAL_ONLY or REMOTE_ONLY.  The
source line 213 spells REMOTE_STATUS without the self qualifier, a name
that is not defined at module level, so the moment the left operand of
the short-circuit conjunction is truthy the method raises NameError
instead of returning true; with a falsy is_valid it returns the falsy
is_valid value itself.  In particular a record with is_valid true and
remote_status LOCAL_ONLY, which the claim calls ready, raises. -/
theorem claim_C2_is_ready_raises :
    is_ready { recValid with is_valid := some true, remote_status := REMOTE_STATUS.LOCAL_ONLY } =
      Except.error PyErr.nameError ∧
    is_ready { recValid with is_valid := some false, remote_status := REMOTE_STATUS.LOCAL_ONLY } =
      Except.ok (some false) ∧
    is_ready { recValid with is_valid := none, remote_status := REMOTE_STATUS.REMOTE_ONLY } =
      Except.ok none := by decide

/-- Claim C3: the claim states that a MINIMUM_SIZE or MAXIMUM_SIZE
resize fails fast as unsupported.  The source arms are pass-TODO
(process_images.py lines 56-60), so the local next_size simply keeps
whatever value the previous iteration left in it.  When such an
operation follows a CROP, the pipeline silently runs the expand and
thumbnail path with the stale intermediate size and completes without
any error (first conjunct: the run returns the reference of a freshly
produced image).  Only when the unimplemented mode is the first
operation does the run fail, and then with an accidental
UnboundLocalError from reading the never-assigned next_size, not with a
designed unsupported-mode failure (second conjunct). -/
theorem claim_C3_min_max_size_not_fail_fast :
    (process_image idPIL [img42] 0 [cropOp22, minOp99]).2 = Except.ok 2 ∧
    (process_image idPIL [img42] 0 [minOp99]).2 = Except.error PyErr.unboundLocal := by
  decide

/-- Claim C6: the claim states that generate_immediate_derivations
invokes generate_derivation exactly for the IMMEDIATELY rules, sharing
one decoded image.  The source reads self.file_class (base.py line 721),
an attribute that exists nowhere on the model class (it is a class
attribute of the AjaxFileUploadView view, views.py line 38), so on any
record that passes the validity guard the method raises AttributeError
before iterating a single rule; on a record that fails the guard it
invokes generation for no rule at all. -/
theorem claim_C6_file_class_attribute_error :
    generate_immediate_derivations { recValid with is_valid := some true } (some ()) envOkGen =
      Except.error PyErr.attributeError ∧
    generate_immediate_derivations { recValid with is_valid := none } (some ()) envOkGen =
      Except.ok [] := by decide

/-- Claim C10: process_image applied to an empty operation list returns
the source image reference itself with the heap untouched: the loop body
never runs and the original object is handed back. -/
theorem claim_C10_empty_ops_identity (env : PILEnv) (store : ImgStore) (src : Nat) :
    process_image env store src [] = (store, Except.ok src) := rfl

/-- Claim C4 counterexample: the claim states that on a LOCAL_CORRUPT
record _get_derivation returns nothing for every combination of flags.
At a corrupt record that still owns a healthy THUMBNAIL child in the
persistent store, a fetch with force_reload true returns that child, not
nothing: the corrupt check of lines 540-549 inspects the child, never
the parent. -/
theorem claim_C4_counterexample :
    recCorruptWithChild.remote_status = REMOTE_STATUS.LOCAL_CORRUPT ∧
    _get_derivation [thumbRule] stgLocal recCorruptWithChild "THUMBNAIL" true true envFailGen =
      Except.ok ⟨some healthyChild,
        { recCorruptWithChild with cache := some [("THUMBNAIL", some healthyChild)] }, 0⟩ ∧
    ¬ ((some healthyChild : Option DFile) = none) := by decide

/-- Claim C5 counterexample: the claim states that a failed write
persists exactly is_valid and remote_status.  On a record whose hash and
generated filename were not yet set, the same call also persists those
two just-computed fields, so four fields are saved, not two. -/
theorem claim_C5_counterexample :
    write_to_disk stgLocal recFresh envIOFail true =
      Except.ok ⟨{ recFresh with
          hash := some "abcdef".data,
          generated_filename := some "a/b/cdef.jpg".data,
          is_valid := some false,
          remote_status := REMOTE_STATUS.LOCAL_CORRUPT },
        some ["hash", "generated_filename", "is_valid", "remote_status"]⟩ ∧
    "hash" ∈ ["hash", "generated_filename", "is_valid", "remote_status"] ∧
    ¬ ("hash" ∈ ["is_valid", "remote_status"]) := by decide

/-- Claim C7 counterexample: the claim states that the height-matched
intermediate width is round(workingHeight * targetAspect).  For a 8 x 3
working image and a 5 x 2 target the exact product is 3 * 5 / 2 = 7.5;
the source truncates with int() and produces width 7, while the claimed
round would produce 8. -/
theorem claim_C7_counterexample :
    resize_geom none 8 3 crop52 = some (7, 3) ∧
    pyRound (3 * 5) 2 = 8 ∧
    ¬ (resize_geom none 8 3 crop52 = some (pyRound (3 * 5) 2, 3)) := by decide

/-- Claim C8 counterexample: the claim states that the extension is the
substring from the last dot of the original filename, or empty when
there is no dot.  os.path.splitext never lets an extension start at a
leading dot of the basename: for the filename .gitignore the source
produces no extension at all, while the claimed rule would append the
whole filename as the extension. -/
theorem claim_C8_counterexample :
    generate_filename "abcdef".data ".gitignore".data 2 1 = "a/b/cdef".data ∧
    generate_filename_claimed "abcdef".data ".gitignore".data 2 1 = "a/b/cdef.gitignore".data ∧
    ¬ (generate_filename "abcdef".data ".gitignore".data 2 1 =
        generate_filename_claimed "abcdef".data ".gitignore".data 2 1) := by decide

/-- Store preservation is reflexive. -/
theorem storePres_refl (s : ImgStore) : storePres s s :=
  ⟨le_refl _, fun _ _ => rfl⟩

/-- Store preservation composes. -/
theorem storePres_trans {s0 s1 s2 : ImgStore} (h1 : storePres s0 s1)
    (h2 : storePres s1 s2) : storePres s0 s2 :=
  ⟨le_trans h1.1 h2.1, fun i hi => (h2.2 i (lt_of_lt_of_le hi h1.1)).trans (h1.2 i hi)⟩

/-- Allocation preserves every live reference. -/
theorem storePres_alloc (s : ImgStore) (img : Img) :
    storePres s (allocImg s img).1 := by
  refine ⟨by simp [allocImg], fun i hi => ?_⟩
  simp [allocImg, List.getElem?_append, hi]

/-- Writing at a reference outside the initial heap preserves every
initial reference. -/
theorem storePres_set {s0 s : ImgStore} {j : Nat} (img : Img)
    (h : storePres s0 s) (hj : s0.length ≤ j) :
    storePres s0 (setImg s j img) := by
  refine ⟨by simpa [setImg] using h.1, fun i hi => ?_⟩
  rw [setImg, List.getElem?_set_ne (by omega)]
  exact h.2 i hi

/-- The paint phase of a resize only allocates fresh images and writes
in place at the freshly allocated reference, so every image alive before
the operation is preserved. -/
theorem resize_paint_frame (env : PILEnv) (store : ImgStore) (working : Nat)
    (r : ResizeSpec) (ns : Nat × Nat) (x y : Int) :
    storePres store (resize_paint env store working r ns x y).1 := by
  unfold resize_paint
  by_cases h1 : (getImg store working).mode = "RGB" <;>
    by_cases h2 : r.resize_mode = ResizeMode.CROP <;>
      simp only [h1, h2, if_pos, if_neg, ite_true, ite_false]
  · exact storePres_set _ (storePres_alloc _ _) (by simp [allocImg])
  · exact storePres_set _ (storePres_set _ (storePres_alloc _ _) (by simp [allocImg]))
      (by simp [allocImg])
  · exact storePres_set _ (storePres_trans (storePres_alloc _ _) (storePres_alloc _ _))
      (by simp [allocImg])
  · refine storePres_set _ (storePres_set _ (storePres_trans (storePres_alloc _ _)
      (storePres_alloc _ _)) (by simp [allocImg])) (by simp [allocImg])

/-- A successful resize step preserves the initial heap. -/
theorem resize_step_frame (env : PILEnv) (st : PIState) (r : ResizeSpec)
    (st' : PIState) (h : resize_step env st r = Except.ok st') :
    storePres st.store st'.store := by
  unfold resize_step at h
  simp only [bind, Except.bind] at h
  split at h
  · exact absurd h (by simp)
  split at h
  · exact absurd h (by simp)
  split at h
  · exact absurd h (by simp)
  obtain rfl := Except.ok.inj h
  exact resize_paint_frame _ _ _ _ _ _ _

/-- A successful loop iteration preserves the initial heap. -/
theorem op_step_frame (env : PILEnv) (st : PIState) (op : ImgOp)
    (st' : PIState) (h : op_step env st op = Except.ok st') :
    storePres st.store st'.store := by
  unfold op_step at h
  simp only [bind, Except.bind] at h
  cases op with
  | resizeOp r =>
    simp only at h
    split at h
    · exact absurd h (by simp)
    split at h
    · exact absurd h (by simp)
    next st1 _ hst1 _ _ _ =>
      obtain rfl := Except.ok.inj h
      simpa using resize_step_frame _ _ _ _ hst1
  | unknownOp n =>
    simp only at h
    split at h
    · exact absurd h (by simp)
    obtain rfl := Except.ok.inj h
    exact storePres_refl _

/-- The whole loop preserves the initial heap, also when it stops with a
propagated exception. -/
theorem run_ops_frame (env : PILEnv) (ops : List ImgOp) (st : PIState) :
    storePres st.store (run_ops env ops st).1 := by
  induction ops generalizing st with
  | nil => exact storePres_refl _
  | cons op rest ih =>
    unfold run_ops
    cases hstep : op_step env st op with
    | error e => exact storePres_refl _
    | ok st' => exact storePres_trans (op_step_frame _ _ _ _ hstep) (ih st')

/-- Claim C9: process_image never mutates the source image.  Whatever
the operation list and the codec capabilities, the heap cell of the
source reference after the call holds the identical image, with its size
and every pixel unchanged (first conjunct); and because the embedding is
a pure function, running the pipeline twice on the same arguments is
definitionally the same computation, so equal inputs give pixel-identical
output (second conjunct). -/
theorem claim_C9_transform_purity (env : PILEnv) (store : ImgStore) (src : Nat)
    (ops : List ImgOp) (hsrc : src < store.length) :
    (process_image env store src ops).1[src]? = store[src]? ∧
    process_image env store src ops = process_image env store src ops := by
  refine ⟨?_, rfl⟩
  exact (run_ops_frame env ops ⟨store, src, none, none⟩).2 src hsrc

/-- Witness for claim C9 at a concrete input: a one-image heap and a
single crop operation. -/
theorem claim_C9_witness :
    0 < [img42].length ∧
    ((process_image idPIL [img42] 0 [cropOp22]).1[0]? = [img42][0]? ∧
      process_image idPIL [img42] 0 [cropOp22] = process_image idPIL [img42] 0 [cropOp22]) :=
  ⟨by decide, claim_C9_transform_purity idPIL [img42] 0 [cropOp22] (by decide)⟩

/-- A cache assignment is visible to the immediately following lookup. -/
theorem cacheLookup_insert_self (c : DCache) (k : String) (v : Option DFile) :
    cacheLookup (cacheInsert c k v) k = some v := by
  simp [cacheLookup, cacheInsert, List.find?]

/-- generate_derivation on a LOCAL_CORRUPT source: the corrupt guard of
lines 588-601 caches the absence and returns nothing, regardless of the
flags, the precomputed image and the external outcomes. -/
theorem generate_derivation_corrupt (table : List DRule) (s : Settings)
    (rec : SFRecord) (dt : String) (oi : Option Unit) (env : GenEnv)
    (rule : DRule) (hrule : get_data_by_id table dt = some rule)
    (hcorrupt : rec.remote_status = REMOTE_STATUS.LOCAL_CORRUPT) :
    generate_derivation table s rec dt oi env =
      Except.ok ⟨none, { rec with cache := some (cacheInsert (rec.cache.getD []) dt none) }⟩ := by
  unfold generate_derivation
  rw [hrule]
  simp only [if_pos (Or.inl hcorrupt)]

/-- Claim C4 amended: on a record whose remote_status is LOCAL_CORRUPT,
generate_derivation always returns nothing (and never raises, the rule
being known), and _get_derivation returns nothing as well provided no
non-corrupt derivation of the requested type already exists, either in
the persistent store or in the cache; this holds for every combination
of process_lazy and force_reload, including force_reload true.  (The
counterexample shows the proviso is needed: a pre-existing healthy child
is still returned.) -/
theorem claim_C4_amended (table : List DRule) (s : Settings) (rec : SFRecord)
    (dt : String) (pl fr : Bool) (oi : Option Unit) (env : GenEnv) (rule : DRule)
    (hrule : get_data_by_id table dt = some rule)
    (hcorrupt : rec.remote_status = REMOTE_STATUS.LOCAL_CORRUPT)
    (hdb : ∀ c ∈ rec.db, c.derivation_type = dt → c.remote_status = REMOTE_STATUS.LOCAL_CORRUPT)
    (hcache : ∀ c : DFile, cacheLookup (rec.cache.getD []) dt = some (some c) →
      c.remote_status = REMOTE_STATUS.LOCAL_CORRUPT) :
    (∃ out, _get_derivation table s rec dt pl fr env = Except.ok out ∧ out.result = none) ∧
    (∃ g, generate_derivation table s rec dt oi env = Except.ok g ∧ g.result = none) := by
  constructor
  · unfold _get_derivation
    rw [hrule]
    dsimp only
    by_cases hq : ((cacheLookup (rec.cache.getD []) dt).isNone = true ∨ fr = true)
    · simp only [if_pos hq, cacheLookup_insert_self, Option.getD_some]
      cases hfd : first_derivation rec dt with
      | none =>
        dsimp only
        by_cases hgen : ((rule.mode = DMode.LAZY ∨ rule.mode = DMode.IMMEDIATELY) ∧ pl = true)
        · rw [if_pos hgen,
            generate_derivation_corrupt table s
              { rec with cache := some (cacheInsert (rec.cache.getD []) dt none) }
              dt none env rule hrule hcorrupt]
          exact ⟨_, rfl, rfl⟩
        · rw [if_neg hgen]
          exact ⟨_, rfl, rfl⟩
      | some c =>
        dsimp only
        have hmem := List.mem_of_find?_eq_some hfd
        have hty : c.derivation_type = dt := by simpa using List.find?_some hfd
        rw [if_pos (hdb c hmem hty)]
        exact ⟨_, rfl, rfl⟩
    · simp only [if_neg hq]
      push_neg at hq
      obtain ⟨v, hv⟩ : ∃ v, cacheLookup (rec.cache.getD []) dt = some v := by
        cases hcl : cacheLookup (rec.cache.getD []) dt with
        | none => exact absurd (by simp [hcl]) (fun h => hq.1 h)
        | some v => exact ⟨v, rfl⟩
      rw [hv]
      cases v with
      | none =>
        simp only [Option.getD_some]
        by_cases hgen : ((rule.mode = DMode.LAZY ∨ rule.mode = DMode.IMMEDIATELY) ∧ pl = true)
        · rw [if_pos hgen,
            generate_derivation_corrupt table s
              { rec with cache := some (rec.cache.getD []) }
              dt none env rule hrule hcorrupt]
          exact ⟨_, rfl, rfl⟩
        · rw [if_neg hgen]
          exact ⟨_, rfl, rfl⟩
      | some c =>
        simp only [Option.getD_some]
        rw [if_pos (hcache c hv)]
        exact ⟨_, rfl, rfl⟩
  · exact ⟨_, generate_derivation_corrupt table s rec dt oi env rule hrule hcorrupt, rfl⟩

/-- Witness for claim C4 amended at a concrete input: a corrupt record
with no derivations at all, fetched and generated for the THUMBNAIL
rule. -/
theorem claim_C4_witness :
    get_data_by_id [thumbRule] "THUMBNAIL" = some thumbRule ∧
    recCorruptBare.remote_status = REMOTE_STATUS.LOCAL_CORRUPT ∧
    ((∃ out, _get_derivation [thumbRule] stgLocal recCorruptBare "THUMBNAIL" true false envFailGen =
        Except.ok out ∧ out.result = none) ∧
      (∃ g, generate_derivation [thumbRule] stgLocal recCorruptBare "THUMBNAIL" none envFailGen =
        Except.ok g ∧ g.result = none)) :=
  ⟨by decide, by decide,
    claim_C4_amended [thumbRule] stgLocal recCorruptBare "THUMBNAIL" true false none envFailGen
      thumbRule (by decide) (by decide)
      (by intro c hc hd; simp [recCorruptBare] at hc)
      (by intro c h; simp [recCorruptBare, cacheLookup] at h)⟩

/-- Claim C5 amended: write_to_disk with save true and a successful
directory setup never raises past the write.  On an IOError from the
byte write it records is_valid false and remote_status LOCAL_CORRUPT and
persists those two fields together with hash and generated_filename when
those were first computed during this very call (exactly the two status
fields when hash and generated filename were already present); on a
successful write it sets remote_status to the configured default and
persists the same name fields plus remote_status. -/
theorem claim_C5_amended (s : Settings) (rec : SFRecord) (env : WriteEnv)
    (hmk : env.mkdir_ok = true) :
    (env.io_ok = false → ∃ out, write_to_disk s rec env true = Except.ok out ∧
      out.record.is_valid = some false ∧
      out.record.remote_status = REMOTE_STATUS.LOCAL_CORRUPT ∧
      out.persisted = some
        ((if rec.hash = none ∨ rec.hash = some [] then ["hash"] else []) ++
          (if rec.generated_filename = none then ["generated_filename"] else []) ++
          ["is_valid", "remote_status"])) ∧
    (env.io_ok = true → ∃ out, write_to_disk s rec env true = Except.ok out ∧
      out.record.remote_status = default_remote_status s ∧
      out.record.is_valid = rec.is_valid ∧
      out.persisted = some
        ((if rec.hash = none ∨ rec.hash = some [] then ["hash"] else []) ++
          (if rec.generated_filename = none then ["generated_filename"] else []) ++
          ["remote_status"])) := by
  constructor
  · intro hio
    by_cases h1 : (rec.hash = none ∨ rec.hash = some [])
    · by_cases h2 : rec.generated_filename = none
      · simp only [write_to_disk, hmk, hio, if_pos h1, if_pos h2, not_true, not_false_iff,
          ite_true, ite_false, Bool.false_eq_true, List.nil_append]
        exact ⟨_, rfl, rfl, rfl, rfl⟩
      · simp only [write_to_disk, hmk, hio, if_pos h1, if_neg h2, not_true, not_false_iff,
          ite_true, ite_false, Bool.false_eq_true, List.nil_append]
        exact ⟨_, rfl, rfl, rfl, rfl⟩
    · by_cases h2 : rec.generated_filename = none
      · simp only [write_to_disk, hmk, hio, if_neg h1, if_pos h2, not_true, not_false_iff,
          ite_true, ite_false, Bool.false_eq_true, List.nil_append]
        exact ⟨_, rfl, rfl, rfl, rfl⟩
      · simp only [write_to_disk, hmk, hio, if_neg h1, if_neg h2, not_true, not_false_iff,
          ite_true, ite_false, Bool.false_eq_true, List.nil_append]
        exact ⟨_, rfl, rfl, rfl, rfl⟩
  · intro hio
    by_cases h1 : (rec.hash = none ∨ rec.hash = some [])
    · by_cases h2 : rec.generated_filename = none
      · simp only [write_to_disk, hmk, hio, if_pos h1, if_pos h2, not_true, not_false_iff,
          ite_true, ite_false, Bool.false_eq_true, List.nil_append]
        exact ⟨_, rfl, rfl, rfl, rfl⟩
      · simp only [write_to_disk, hmk, hio, if_pos h1, if_neg h2, not_true, not_false_iff,
          ite_true, ite_false, Bool.false_eq_true, List.nil_append]
        exact ⟨_, rfl, rfl, rfl, rfl⟩
    · by_cases h2 : rec.generated_filename = none
      · simp only [write_to_disk, hmk, hio, if_neg h1, if_pos h2, not_true, not_false_iff,
          ite_true, ite_false, Bool.false_eq_true, List.nil_append]
        exact ⟨_, rfl, rfl, rfl, rfl⟩
      · simp only [write_to_disk, hmk, hio, if_neg h1, if_neg h2, not_true, not_false_iff,
          ite_true, ite_false, Bool.false_eq_true, List.nil_append]
        exact ⟨_, rfl, rfl, rfl, rfl⟩

/-- Witness for claim C5 amended at a concrete input: a fully resolved
record (hash and generated filename already set) whose write raises, so
exactly is_valid and remote_status are persisted. -/
theorem claim_C5_witness :
    envIOFail.mkdir_ok = true ∧
    ((envIOFail.io_ok = false → ∃ out, write_to_disk stgLocal recValid envIOFail true = Except.ok out ∧
      out.record.is_valid = some false ∧
      out.record.remote_status = REMOTE_STATUS.LOCAL_CORRUPT ∧
      out.persisted = some
        ((if recValid.hash = none ∨ recValid.hash = some [] then ["hash"] else []) ++
          (if recValid.generated_filename = none then ["generated_filename"] else []) ++
          ["is_valid", "remote_status"])) ∧
    (envIOFail.io_ok = true → ∃ out, write_to_disk stgLocal recValid envIOFail true = Except.ok out ∧
      out.record.remote_status = default_remote_status stgLocal ∧
      out.record.is_valid = recValid.is_valid ∧
      out.persisted = some
        ((if recValid.hash = none ∨ recValid.hash = some [] then ["hash"] else []) ++
          (if recValid.generated_filename = none then ["generated_filename"] else []) ++
          ["remote_status"]))) :=
  ⟨rfl, claim_C5_amended stgLocal recValid envIOFail rfl⟩

/-- Claim C7 amended: for a CROP resize with positive dimensions, when
the working aspect ratio strictly exceeds the target aspect ratio the
intermediate size is height-matched with width equal to the FLOOR (the
int() truncation the source applies, not the round the claim states) of
workingHeight * targetAspect; otherwise it is width-matched with height
equal to the floor of workingWidth / targetAspect. -/
theorem claim_C7_amended (prev : Option (Nat × Nat)) (w h tw th : Nat)
    (aH : AnchorH) (aV : AnchorV) (bg : Option Color)
    (hh : 0 < h) (_htw : 0 < tw) (hth : 0 < th) :
    resize_geom prev w h ⟨(tw, th), ResizeMode.CROP, aH, aV, bg⟩ =
      (if (tw : ℚ) / (th : ℚ) < (w : ℚ) / (h : ℚ) then
        some (⌊(h : ℚ) * ((tw : ℚ) / (th : ℚ))⌋₊, h)
      else
        some (w, ⌊(w : ℚ) / ((tw : ℚ) / (th : ℚ))⌋₊)) := by
  have hcond : ((tw : ℚ) / (th : ℚ) < (w : ℚ) / (h : ℚ)) ↔ (tw * h < w * th) := by
    rw [div_lt_div_iff₀ (by exact_mod_cast hth) (by exact_mod_cast hh)]
    exact_mod_cast Iff.rfl
  have hfloor1 : ⌊(h : ℚ) * ((tw : ℚ) / (th : ℚ))⌋₊ = h * tw / th := by
    rw [← mul_div_assoc, ← Nat.cast_mul, Nat.floor_div_eq_div]
  have hfloor2 : ⌊(w : ℚ) / ((tw : ℚ) / (th : ℚ))⌋₊ = w * th / tw := by
    rw [div_div_eq_mul_div, ← Nat.cast_mul, Nat.floor_div_eq_div]
  simp only [resize_geom, hcond, hfloor1, hfloor2]
  simp

/-- Witness for claim C7 amended at a concrete input: the 8 x 3 working
image against the 5 x 2 target of the counterexample. -/
theorem claim_C7_witness :
    0 < 3 ∧ 0 < 5 ∧ 0 < 2 ∧
    resize_geom none 8 3 ⟨(5, 2), ResizeMode.CROP, AnchorH.CENTER, AnchorV.CENTER, none⟩ =
      (if (5 : ℚ) / (2 : ℚ) < (8 : ℚ) / (3 : ℚ) then
        some (⌊(3 : ℚ) * ((5 : ℚ) / (2 : ℚ))⌋₊, 3)
      else
        some (8, ⌊(8 : ℚ) / ((5 : ℚ) / (2 : ℚ))⌋₊)) :=
  ⟨by decide, by decide, by decide,
    claim_C7_amended none 8 3 5 2 AnchorH.CENTER AnchorV.CENTER none
      (by decide) (by decide) (by decide)⟩

/-- The last element of a cons with a nonempty tail is the last element
of the tail. -/
theorem getLast?_cons_of_ne_nil (a : Char) (l : List Char) (h : l ≠ []) :
    (a :: l).getLast? = l.getLast? := by
  have := List.getLast?_append_of_ne_nil [a] h
  simpa using this

/-- The join fold over components that are nonempty and free of leading
and trailing separators inserts exactly one separator before each
component. -/
theorem pyJoinFold_eq (l : List (List Char)) :
    ∀ path : List Char, path ≠ [] → path.getLast? ≠ some '/' →
    (∀ b ∈ l, b ≠ [] ∧ b.head? ≠ some '/' ∧ b.getLast? ≠ some '/') →
    pyJoinFold path l = path ++ (l.map (fun b => '/' :: b)).flatten := by
  induction l with
  | nil =>
    intro path _ _ _
    simp [pyJoinFold]
  | cons b rest ih =>
    intro path hp hpl hb
    obtain ⟨hbne, hbh, hbl⟩ := hb b (List.mem_cons_self b rest)
    unfold pyJoinFold
    rw [if_neg hbh, if_neg (not_or.mpr ⟨hp, hpl⟩)]
    rw [ih (path ++ '/' :: b) (by simp) ?_ (fun c hc => hb c (List.mem_cons_of_mem _ hc))]
    · simp
    · rw [List.getLast?_append_of_ne_nil path (List.cons_ne_nil _ _),
        getLast?_cons_of_ne_nil '/' b hbne]
      exact hbl

/-- intercalate with a singleton separator, unfolded to the same
separator-prefixed flatten shape. -/
theorem intercalate_slash (a : List Char) (l : List (List Char)) :
    List.intercalate ['/'] (a :: l) = a ++ (l.map (fun b => '/' :: b)).flatten := by
  induction l generalizing a with
  | nil => simp [List.intercalate]
  | cons b rest ih =>
    simp only [List.intercalate, List.intersperse_cons_cons, List.flatten_cons] at ih ⊢
    rw [List.map_cons, List.flatten_cons]
    have := ih (a := b)
    simp only [List.intercalate] at this
    rw [this]
    simp

/-- On nonempty, separator-free components, os.path.join coincides with
joining the components with single separators. -/
theorem pyJoin_eq_intercalate (l : List (List Char))
    (hne : l ≠ []) (hb : ∀ b ∈ l, b ≠ [] ∧ ¬ '/' ∈ b) :
    pyJoin l = List.intercalate ['/'] l := by
  cases l with
  | nil => exact absurd rfl hne
  | cons a rest =>
    obtain ⟨hane, haslash⟩ := hb a (List.mem_cons_self a rest)
    show pyJoinFold a rest = List.intercalate ['/'] (a :: rest)
    rw [pyJoinFold_eq rest a hane
      (fun hc => haslash (List.mem_of_mem_getLast? hc)) ?_, intercalate_slash]
    intro c hc
    obtain ⟨hcne, hcslash⟩ := hb c (List.mem_cons_of_mem _ hc)
    exact ⟨hcne, fun hh => hcslash (List.mem_of_mem_head? hh),
      fun hh => hcslash (List.mem_of_mem_getLast? hh)⟩

/-- The splitext extension is made of characters of the filename. -/
theorem splitext_snd_subset (p : List Char) : (splitext p).2 ⊆ p := by
  unfold splitext
  dsimp only
  split_ifs <;> simp [List.drop_subset]

/-- Concatenating the directory segments recovers the front of the
hash: the segments are taken from the front, the remainder follows. -/
theorem seg_flatten (hs : List Char) (C : Nat) :
    ∀ L : Nat, (((List.range L).map fun i => (hs.drop (i * C)).take C)).flatten =
      hs.take (L * C) := by
  intro L
  induction L with
  | zero => simp
  | succ n ihn =>
    rw [List.range_succ, List.map_append, List.flatten_append, ihn]
    simp only [List.map_cons, List.map_nil, List.flatten_cons, List.flatten_nil,
      List.append_nil, Nat.succ_mul]
    rw [List.take_add]

/-- When the hash is long enough, every directory segment has exactly
splitChars characters. -/
theorem seg_length (hs : List Char) (L C : Nat) (hC : 0 < C) (hlen : L * C ≤ hs.length) :
    ∀ d ∈ (List.range L).map (fun i => (hs.drop (i * C)).take C), d.length = C := by
  intro d hd
  obtain ⟨i, hi, rfl⟩ := List.mem_map.mp hd
  have hi' : i < L := List.mem_range.mp hi
  have hstep : (i + 1) * C ≤ hs.length :=
    le_trans (Nat.mul_le_mul_right C hi') hlen
  rw [Nat.succ_mul] at hstep
  simp only [List.length_take, List.length_drop]
  omega

/-- Claim C8 amended: generate_filename is deterministic (it is a pure
function of the hash, the filename and the split settings) and, for a
separator-free hash long enough for the configured segments and a
separator-free filename with a nonempty final component, it returns the
SPLIT_LEVELS segments of SPLIT_CHARS characters taken from the front of
the hash, joined with a final component made of the remaining hash
concatenated with the os.path.splitext extension of the original
filename -- the dot-suffix of the filename whose dot is preceded by at
least one non-dot character, empty otherwise (this is the corrected
extension rule; the counterexample shows the after-the-last-dot rule of
the claim differs on leading-dot filenames).  SPLIT_LEVELS = 0 yields
the single flat component with no separator and is not an error (second
conjunct). -/
theorem claim_C8_amended :
    (∀ (hs fn : List Char) (L C : Nat), 0 < C → L * C ≤ hs.length →
      ¬ '/' ∈ hs → ¬ '/' ∈ fn → hs.drop (L * C) ++ (splitext fn).2 ≠ [] →
      (generate_filename hs fn L C =
        List.intercalate ['/']
          (((List.range L).map fun i => (hs.drop (i * C)).take C) ++
            [hs.drop (L * C) ++ (splitext fn).2]) ∧
        (∀ d ∈ (List.range L).map fun i => (hs.drop (i * C)).take C, d.length = C) ∧
        (((List.range L).map fun i => (hs.drop (i * C)).take C)).flatten =
          hs.take (L * C))) ∧
    (∀ (hs fn : List Char) (C : Nat), generate_filename hs fn 0 C = hs ++ (splitext fn).2) := by
  constructor
  · intro hs fn L C hC hlen hsl hfsl hfin
    refine ⟨?_, seg_length hs L C hC hlen, seg_flatten hs C L⟩
    unfold generate_filename
    apply pyJoin_eq_intercalate
    · simp
    · intro b hb
      rcases List.mem_append.mp hb with hb | hb
      · have hlenb := seg_length hs L C hC hlen _ hb
        obtain ⟨i, hi, rfl⟩ := List.mem_map.mp hb
        refine ⟨?_, ?_⟩
        · intro hnil
          rw [hnil] at hlenb
          simp at hlenb
          omega
        · intro hmem
          exact hsl (List.drop_subset _ _ (List.take_subset _ _ hmem))
      · simp only [List.mem_singleton] at hb
        subst hb
        refine ⟨hfin, ?_⟩
        intro hmem
        rcases List.mem_append.mp hmem with hm | hm
        · exact hsl (List.drop_subset _ _ hm)
        · exact hfsl (splitext_snd_subset fn hm)
  · intro hs fn C
    simp [generate_filename, pyJoin, pyJoinFold]

/-- Witness for claim C8 amended at a concrete input: hash abcdef,
filename photo.jpg, two split levels of one character. -/
theorem claim_C8_witness :
    0 < 1 ∧ 2 * 1 ≤ "abcdef".data.length ∧ ¬ '/' ∈ "abcdef".data ∧
    ¬ '/' ∈ "photo.jpg".data ∧
    "abcdef".data.drop (2 * 1) ++ (splitext "photo.jpg".data).2 ≠ [] ∧
    (generate_filename "abcdef".data "photo.jpg".data 2 1 =
        List.intercalate ['/']
          (((List.range 2).map fun i => ("abcdef".data.drop (i * 1)).take 1) ++
            ["abcdef".data.drop (2 * 1) ++ (splitext "photo.jpg".data).2]) ∧
      (∀ d ∈ (List.range 2).map fun i => ("abcdef".data.drop (i * 1)).take 1, d.length = 1) ∧
      (((List.range 2).map fun i => ("abcdef".data.drop (i * 1)).take 1)).flatten =
        "abcdef".data.take (2 * 1)) :=
  ⟨by decide, by decide, by decide, by decide, by decide,
    claim_C8_amended.1 "abcdef".data "photo.jpg".data 2 1 (by decide) (by decide)
      (by decide) (by decide) (by decide)⟩
